import Mathlib

/-!
Shallow embedding of the appointment-scheduler pipeline
(`app/utils/confidence.py`, `app/services/normalization_service.py`,
`app/services/llm_service.py`, `app/routes/normalize.py`,
`app/routes/appointment.py`).

Conventions of the embedding:
* Python floats are modelled as exact rationals (`ℚ`); `round(x, 2)` is
  modelled as exact half-up rounding of `100*x`.  Every confidence value the
  code produces is a 2-decimal multiple, and no claim below distinguishes the
  tie-breaking direction of `round`.
* The external collaborators (the `dateparser` library and the LLM / OCR
  backends) are abstracted as oracle functions passed explicitly; everything
  the repository itself computes is embedded faithfully.
* Python truthiness of an optional string (`None` and `""` are falsy) is
  `pyFalsyStr`.
-/

namespace Scheduler

/-- The brace characters, kept out of string literals. -/
def lbrace : Char := Char.ofNat 123

/-- Closing brace character. -/
def rbrace : Char := Char.ofNat 125

/-- ASCII whitespace as treated by Python `str.strip()` and the regex `\s`. -/
def isPySpace (c : Char) : Bool :=
  c = ' ' || c = '\t' || c = '\n' || c = '\r' || c = Char.ofNat 11 || c = Char.ofNat 12

/-- Python `str.strip()` on a character list. -/
def pyStripList (cs : List Char) : List Char :=
  ((cs.dropWhile isPySpace).reverse.dropWhile isPySpace).reverse

/-- Python `str.strip()`. -/
def pyStrip (s : String) : String := ⟨pyStripList s.toList⟩

/-- Python `str.lower()` (ASCII input). -/
def pyLower (s : String) : String := ⟨s.toList.map Char.toLower⟩

/-- Helper for `pyTitle`: the boolean records whether the previous character
was alphabetic (i.e. whether we are inside a word). -/
def titleCaseAux : Bool → List Char → List Char
  | _, [] => []
  | prevAlpha, c :: cs =>
    if c.isAlpha then
      (if prevAlpha then c.toLower else c.toUpper) :: titleCaseAux true cs
    else
      c :: titleCaseAux false cs

/-- Python `str.title()` (ASCII input): first letter of each run of letters
uppercased, the rest lowercased. -/
def pyTitle (s : String) : String := ⟨titleCaseAux false s.toList⟩

/-- Does list `hay` start with list `needle`? -/
def startsWithC : List Char → List Char → Bool
  | [], _ => true
  | _ :: _, [] => false
  | a :: as, b :: bs => a = b && startsWithC as bs

/-- Substring containment on character lists (Python `needle in hay`). -/
def containsSub : List Char → List Char → Bool
  | needle, [] => startsWithC needle []
  | needle, c :: rest => startsWithC needle (c :: rest) || containsSub needle rest

/-- Python `needle in hay` on strings. -/
def strContains (hay needle : String) : Bool := containsSub needle.toList hay.toList

/-- First-match association-list lookup (Python `dict` membership + indexing;
the dictionaries in the source have distinct keys, and iteration order is
insertion order). -/
def assocLookup {α : Type} (key : String) : List (String × α) → Option α
  | [] => none
  | (k, v) :: rest => if k = key then some v else assocLookup key rest

/-- Python `min(max(x, 0.0), 1.0)`. -/
def clamp01 (q : ℚ) : ℚ := min (max q 0) 1

/-- Floor of a rational as an integer, computed by floor division so that it
reduces in the kernel. -/
def floorQ (q : ℚ) : ℤ := Int.fdiv q.num q.den

/-- Half-up rounding of a rational to an integer. -/
def rnd (q : ℚ) : ℤ := floorQ (q + 1/2)

/-- Python `round(x, 2)` modelled as exact rounding of `100*x` (see the file
header for the tie-breaking caveat, which no claim depends on). -/
def round2 (q : ℚ) : ℚ := (rnd (q * 100) : ℚ) / 100

/-- Constant `MIN_OCR_CONFIDENCE = 0.5` (`confidence.py`). -/
def MIN_OCR_CONFIDENCE : ℚ := 1/2

/-- Constant `MIN_EXTRACTION_CONFIDENCE = 0.6` (`confidence.py`). -/
def MIN_EXTRACTION_CONFIDENCE : ℚ := 3/5

/-- Constant `MIN_NORMALIZATION_CONFIDENCE = 0.7` (`confidence.py`). -/
def MIN_NORMALIZATION_CONFIDENCE : ℚ := 7/10

/-- The entity dictionary produced by `parse_llm_response` / consumed by the
routes (`EntityData` in `schemas/output.py`). -/
structure EntityData where
  date_phrase : Option String
  time_phrase : Option String
  department : Option String
deriving DecidableEq, Repr

/-- Source `calculate_extraction_confidence` (`confidence.py` lines 50-74).  The
`entities` dictionary argument is accepted but never inspected, exactly as in
the source. -/
def calculate_extraction_confidence (entities : EntityData)
    (has_date has_time has_department : Bool) : ℚ :=
  let found_count : Nat :=
    (if has_date then 1 else 0) + (if has_time then 1 else 0) +
      (if has_department then 1 else 0)
  let confidence : ℚ :=
    if found_count = 3 then 95/100
    else if found_count = 2 then 85/100
    else if found_count = 1 then 70/100
    else 40/100
  round2 confidence

/-- Source `calculate_normalization_confidence` (`confidence.py` lines 77-101). -/
def calculate_normalization_confidence (date_parsed time_parsed : Bool)
    (is_relative : Bool) : ℚ :=
  if !date_parsed && !time_parsed then 0
  else
    let c0 : ℚ := 9/10
    let c1 := if !date_parsed then c0 * (1/2) else c0
    let c2 := if !time_parsed then c1 * (7/10) else c1
    let c3 := if is_relative then c2 * (95/100) else c2
    round2 (clamp01 c3)

/-- Source `meets_threshold` (`confidence.py` lines 104-111). -/
def meets_threshold (confidence : ℚ) (stage : String) : Bool :=
  let threshold : ℚ :=
    if stage = "ocr" then MIN_OCR_CONFIDENCE
    else if stage = "extraction" then MIN_EXTRACTION_CONFIDENCE
    else if stage = "normalization" then MIN_NORMALIZATION_CONFIDENCE
    else 1/2
  decide (threshold ≤ confidence)

/-- Source `DEPARTMENT_MAPPING` (`normalization_service.py` lines 15-85), in source
insertion order. -/
def DEPARTMENT_MAPPING : List (String × String) := [
  ("dentist", "Dentistry"),
  ("dental", "Dentistry"),
  ("teeth", "Dentistry"),
  ("tooth", "Dentistry"),
  ("orthodontist", "Dentistry"),
  ("doctor", "General Medicine"),
  ("physician", "General Medicine"),
  ("gp", "General Medicine"),
  ("general", "General Medicine"),
  ("checkup", "General Medicine"),
  ("check-up", "General Medicine"),
  ("consultation", "General Medicine"),
  ("cardiologist", "Cardiology"),
  ("cardiology", "Cardiology"),
  ("heart", "Cardiology"),
  ("dermatologist", "Dermatology"),
  ("dermatology", "Dermatology"),
  ("skin", "Dermatology"),
  ("ophthalmologist", "Ophthalmology"),
  ("ophthalmology", "Ophthalmology"),
  ("eye", "Ophthalmology"),
  ("eyes", "Ophthalmology"),
  ("optometrist", "Ophthalmology"),
  ("orthopedic", "Orthopedics"),
  ("orthopedics", "Orthopedics"),
  ("bone", "Orthopedics"),
  ("bones", "Orthopedics"),
  ("joints", "Orthopedics"),
  ("pediatrician", "Pediatrics"),
  ("pediatrics", "Pediatrics"),
  ("child", "Pediatrics"),
  ("children", "Pediatrics"),
  ("ent", "ENT"),
  ("ear", "ENT"),
  ("nose", "ENT"),
  ("throat", "ENT"),
  ("neurologist", "Neurology"),
  ("neurology", "Neurology"),
  ("brain", "Neurology"),
  ("nerve", "Neurology"),
  ("psychiatrist", "Psychiatry"),
  ("psychiatry", "Psychiatry"),
  ("mental", "Psychiatry"),
  ("psychological", "Psychiatry"),
  ("gynecologist", "Gynecology"),
  ("gynecology", "Gynecology"),
  ("obgyn", "Gynecology"),
  ("ob-gyn", "Gynecology")]

/-- The substring pass of `normalize_department`: first mapping entry (in
iteration order) whose key is a substring of the phrase or vice versa. -/
def substringLookup (dept_lower : String) : List (String × String) → Option String
  | [] => none
  | (k, v) :: rest =>
    if strContains dept_lower k || strContains k dept_lower then some v
    else substringLookup dept_lower rest

/-- Python truthiness of an optional string: `None` and `""` are falsy. -/
def pyFalsyStr : Option String → Bool
  | none => true
  | some s => s.isEmpty

/-- Source `normalize_department` (`normalization_service.py` lines 267-292). -/
def normalize_department (department : Option String) : Option String :=
  if pyFalsyStr department then none
  else
    match department with
    | none => none
    | some dept =>
      let dept_lower := pyLower (pyStrip dept)
      match assocLookup dept_lower DEPARTMENT_MAPPING with
      | some v => some v
      | none =>
        match substringLookup dept_lower DEPARTMENT_MAPPING with
        | some v => some v
        | none => some (pyTitle dept)

/-- The canonical department names: the range of `DEPARTMENT_MAPPING`. -/
def canonicalDepartments : List String :=
  ["Dentistry", "General Medicine", "Cardiology", "Dermatology",
   "Ophthalmology", "Orthopedics", "Pediatrics", "ENT", "Neurology",
   "Psychiatry", "Gynecology"]

/-- A calendar date, standing for Python `datetime.date`. -/
structure PDate where
  year : Nat
  month : Nat
  day : Nat
deriving DecidableEq, Repr

/-- A time of day, standing for the `%H:%M` component of a Python
`datetime`. -/
structure PTime where
  hour : Nat
  minute : Nat
deriving DecidableEq, Repr

/-- Comparison `a <= b` on dates (Python `date` comparison, lexicographic). -/
def dateLe (a b : PDate) : Bool :=
  a.year < b.year || (a.year = b.year && (a.month < b.month ||
    (a.month = b.month && a.day ≤ b.day)))

/-- Zero-pad a natural number to the given width. -/
def padNat (width n : Nat) : String :=
  let s := toString n
  ⟨List.replicate (width - s.length) '0'⟩ ++ s

/-- Python `parsed_date.strftime("%Y-%m-%d")`. -/
def formatDate (d : PDate) : String :=
  padNat 4 d.year ++ "-" ++ padNat 2 d.month ++ "-" ++ padNat 2 d.day

/-- Python `parsed_time.strftime("%H:%M")`. -/
def formatTime (t : PTime) : String :=
  padNat 2 t.hour ++ ":" ++ padNat 2 t.minute

/-- Value of a digit string. -/
def digitsToNat (cs : List Char) : Nat :=
  cs.foldl (fun acc c => acc * 10 + (c.toNat - '0'.toNat)) 0

/-- Gregorian leap year (as Python `datetime` validates it). -/
def isLeapYear (y : Nat) : Bool := (y % 4 = 0 && !(y % 100 = 0)) || y % 400 = 0

/-- Days in a month (as Python `datetime` validates it). -/
def daysInMonth (y m : Nat) : Nat :=
  if m = 2 then (if isLeapYear y then 29 else 28)
  else if m = 4 || m = 6 || m = 9 || m = 11 then 30
  else 31

/-- Split a character list on `'-'` (the field separation `strptime` performs
for the pattern `"%Y-%m-%d"`). -/
def splitOnDash : List Char → List (List Char)
  | [] => [[]]
  | c :: cs =>
    let r := splitOnDash cs
    if c = '-' then [] :: r
    else
      match r with
      | [] => [[c]]
      | h :: t => (c :: h) :: t

/-- Python `datetime.strptime(date_str, "%Y-%m-%d")` restricted to the date
component: three dash-separated digit fields of widths at most 4/2/2, with
the calendar-validity checks `datetime` performs; `none` models the
`ValueError` path. -/
def parseIso (s : String) : Option PDate :=
  match (splitOnDash s.toList).map (fun l => String.mk l) with
  | [ys, ms, ds] =>
    let yc := ys.toList
    let mc := ms.toList
    let dc := ds.toList
    if yc.all Char.isDigit && mc.all Char.isDigit && dc.all Char.isDigit &&
        decide (0 < yc.length) && decide (yc.length ≤ 4) &&
        decide (0 < mc.length) && decide (mc.length ≤ 2) &&
        decide (0 < dc.length) && decide (dc.length ≤ 2) then
      let y := digitsToNat yc
      let m := digitsToNat mc
      let d := digitsToNat dc
      if decide (1 ≤ y) && decide (1 ≤ m) && decide (m ≤ 12) &&
          decide (1 ≤ d) && decide (d ≤ daysInMonth y m) then
        some ⟨y, m, d⟩
      else none
    else none
  | _ => none

/-- Source `validate_appointment_date` (`normalization_service.py` lines 295-313).
`today` stands for `datetime.now(tz).date()`; a `strptime` failure (the
`except` path) yields `false`. -/
def validate_appointment_date (date_str : String) (today : PDate) : Bool :=
  match parseIso date_str with
  | some d => dateLe today d
  | none => false

/-- The external `dateparser.parse` call of `parse_date`, abstracted: the
boolean is the `STRICT_PARSING` setting, the result the parsed date (already
projected through `.date()`), `none` covering both a `None` return and an
exception. -/
def DateBackend : Type := Bool → String → Option PDate

/-- The external `dateparser.parse` call of `parse_time`, abstracted: the
result is the time-of-day component of the parsed datetime. -/
def TimeBackend : Type := String → Option PTime

/-- Source `relative_indicators` (`normalization_service.py` lines 170-174). -/
def relative_indicators : List String :=
  ["today", "tomorrow", "yesterday",
   "next", "this", "coming",
   "monday", "tuesday", "wednesday", "thursday", "friday", "saturday", "sunday"]

/-- The indicator scan of `parse_date` (lines 176-180): any indicator occurs
in the lowercased phrase. -/
def hasRelativeIndicator (date_phrase : String) : Bool :=
  let date_lower := pyLower date_phrase
  relative_indicators.any (fun ind => strContains date_lower ind)

/-- Source `parse_date` (`normalization_service.py` lines 156-214): the relative
scan is computed in the source; the strict pass is tried first and the
lenient pass only if it returned nothing. -/
def parse_date (dp : DateBackend) (date_phrase : String) :
    Option PDate × Bool :=
  let is_relative := hasRelativeIndicator date_phrase
  let parsed :=
    match dp true date_phrase with
    | some d => some d
    | none => dp false date_phrase
  (parsed, is_relative)

/-- Source `time_mappings` (`normalization_service.py` lines 232-238), with the
`strptime("%H:%M")` conversion of each value applied. -/
def time_mappings : List (String × PTime) :=
  [("morning", ⟨9, 0⟩),
   ("noon", ⟨12, 0⟩),
   ("afternoon", ⟨14, 0⟩),
   ("evening", ⟨18, 0⟩),
   ("night", ⟨20, 0⟩)]

/-- Source `parse_time` (`normalization_service.py` lines 217-264): the five fixed
mappings are checked on the lowercased, trimmed phrase first; otherwise the
external backend is consulted. -/
def parse_time (tp : TimeBackend) (time_phrase : String) : Option PTime :=
  let time_lower := pyLower (pyStrip time_phrase)
  match assocLookup time_lower time_mappings with
  | some t => some t
  | none => tp time_phrase

/-- The dict built by `normalize_datetime` (lines 144-148): `date` and `time`
may be `None` at construction; line 150 guards on that. -/
structure NormalizedDict where
  date : Option String
  time : Option String
  tz : String
deriving DecidableEq, Repr

/-- The date phase of `normalize_datetime` (lines 111-117): `if date_phrase:`
is Python truthiness, so `None` and `""` skip parsing. -/
def datePhase (dp : DateBackend) (date_phrase : Option String) :
    Option PDate × Bool :=
  match date_phrase with
  | some s => if s.isEmpty then (none, false) else parse_date dp s
  | none => (none, false)

/-- The time phase of `normalize_datetime` (lines 119-121). -/
def timePhase (tp : TimeBackend) (time_phrase : Option String) : Option PTime :=
  match time_phrase with
  | some s => if s.isEmpty then none else parse_time tp s
  | none => none

/-- Lines 123-153 of `normalize_datetime`, from the parsed values on:
the neither-check, the today-defaulting of a missing date, the
no-default-time policy, confidence, dict assembly and the final
both-fields guard. -/
def normalize_datetime_core (today : PDate) (tzName : String)
    (parsed_date : Option PDate) (is_relative : Bool)
    (parsed_time : Option PTime) : Option NormalizedDict × ℚ :=
  if parsed_date.isNone && parsed_time.isNone then (none, 0)
  else
    let parsed_date2 :=
      if parsed_date.isNone && parsed_time.isSome then some today else parsed_date
    let is_relative2 :=
      if parsed_date.isNone && parsed_time.isSome then true else is_relative
    if parsed_time.isNone && parsed_date2.isSome then (none, 0)
    else
      let confidence :=
        calculate_normalization_confidence parsed_date2.isSome
          parsed_time.isSome is_relative2
      let normalized : NormalizedDict :=
        { date := parsed_date2.map formatDate,
          time := parsed_time.map formatTime,
          tz := tzName }
      if normalized.date.isNone || normalized.time.isNone then
        (none, confidence)
      else
        (some normalized, confidence)

/-- Source `normalize_datetime` (`normalization_service.py` lines 88-153).  `today`
stands for `datetime.now(tz).date()` and `tzName` for `settings.tz`. -/
def normalize_datetime (dp : DateBackend) (tp : TimeBackend) (today : PDate)
    (tzName : String) (date_phrase time_phrase : Option String) :
    Option NormalizedDict × ℚ :=
  normalize_datetime_core today tzName (datePhase dp date_phrase).1
    (datePhase dp date_phrase).2 (timePhase tp time_phrase)

/-- The response body of the `/normalize` route (`NormalizeOutput` in
`schemas/output.py`). -/
structure NormalizeOutput where
  normalized : Option NormalizedDict
  normalization_confidence : ℚ
  status : String
  message : Option String
deriving DecidableEq, Repr

/-- Source `normalize_entities`, the `/normalize` route handler
(`routes/normalize.py` lines 25-48): the only gate is the
`normalized is None or date is None or time is None` check. -/
def normalize_entities (dp : DateBackend) (tp : TimeBackend) (today : PDate)
    (tzName : String) (date_phrase time_phrase : Option String) :
    NormalizeOutput :=
  let r := normalize_datetime dp tp today tzName date_phrase time_phrase
  match r.1 with
  | none =>
    { normalized := none,
      normalization_confidence := r.2,
      status := "needs_clarification",
      message := some "Could not parse date or time. Please provide a specific date and time." }
  | some n =>
    if n.date.isNone || n.time.isNone then
      { normalized := none,
        normalization_confidence := r.2,
        status := "needs_clarification",
        message := some "Could not parse date or time. Please provide a specific date and time." }
    else
      { normalized := some n,
        normalization_confidence := r.2,
        status := "ok",
        message := none }

/-- The terminal outcome of the `/appointment` route: `AppointmentOutput`
with either a clarification message or the appointment payload. -/
inductive AppointmentResult where
  | clarification (message : String)
  | ok (department : Option String) (date : String) (time : String) (tz : String)
deriving DecidableEq, Repr

/-- The f-string `f"{x:.2f}"` on a 2-decimal rational. -/
def fmt2 (q : ℚ) : String :=
  let n : ℤ := rnd (q * 100)
  let m := n.natAbs
  (if n < 0 then "-" else "") ++ toString (m / 100) ++ "." ++ padNat 2 (m % 100)

/-- Source `create_appointment`, the `/appointment` route handler
(`routes/appointment.py` lines 36-107).  The OCR stage and the LLM transport
are external: `ocr_confidence` is the stage-1 score and `entities` the
dictionary `parse_llm_response` returned; the extraction confidence is then
computed from presence flags exactly as `extract_entities`
(`llm_service.py` lines 92-101) does. -/
def create_appointment (ocr_confidence : ℚ) (entities : EntityData)
    (dp : DateBackend) (tp : TimeBackend) (today : PDate) (tzName : String) :
    AppointmentResult :=
  if ocr_confidence < MIN_OCR_CONFIDENCE then
    .clarification ("Text extraction confidence too low (" ++ fmt2 ocr_confidence
      ++ "). Please provide clearer input.")
  else
    let has_date := entities.date_phrase.isSome
    let has_time := entities.time_phrase.isSome
    let has_department := entities.department.isSome
    let extraction_confidence :=
      calculate_extraction_confidence entities has_date has_time has_department
    if extraction_confidence < MIN_EXTRACTION_CONFIDENCE then
      .clarification "Could not extract sufficient information. Please include date, time, and appointment type."
    else
      let date_phrase := entities.date_phrase
      let time_phrase := entities.time_phrase
      let department := entities.department
      let missing_fields : List String :=
        (if pyFalsyStr date_phrase then ["date"] else []) ++
        (if pyFalsyStr time_phrase then ["time"] else []) ++
        (if pyFalsyStr department then ["department/appointment type"] else [])
      if !missing_fields.isEmpty then
        .clarification ("Missing required information: "
          ++ String.intercalate ", " missing_fields)
      else
        let r := normalize_datetime dp tp today tzName date_phrase time_phrase
        match r.1 with
        | none =>
          .clarification "Could not parse date or time. Please provide a specific date and time."
        | some n =>
          if n.date.isNone || n.time.isNone then
            .clarification "Could not parse date or time. Please provide a specific date and time."
          else
            .ok (normalize_department department) (n.date.getD "") (n.time.getD "") n.tz

/-- The three-backtick fence marker. -/
def fenceMark : List Char := List.replicate 3 (Char.ofNat 96)

/-- Drop leading regex-`\s*` whitespace. -/
def dropSpaces (cs : List Char) : List Char := cs.dropWhile isPySpace

/-- Does a closing fence follow, after optional whitespace (`\s*` + three
backticks)? -/
def closesFence (cs : List Char) : Bool := startsWithC fenceMark (dropSpaces cs)

/-- The lazy body of the fenced-block pattern: the shortest run of arbitrary
characters (DOTALL `.`) up to a closing brace that is followed by a closing
fence; the returned capture is the brace-delimited group. -/
def fencedBody : List Char → List Char → Option (List Char)
  | _, [] => none
  | acc, c :: cs =>
    if c = rbrace && closesFence cs then
      some (lbrace :: (acc.reverse ++ [rbrace]))
    else fencedBody (c :: acc) cs

/-- Attempt the fenced-block pattern anchored at the head of the list: three
backticks, then optionally the literal `json`, then `\s*`, then the lazy
brace group.  Where the regex engine would branch (the optional `json`, the
greedy `\s*`), no character that can follow is also acceptable to the next
pattern element, so the first-preference parse is the only possible one and
the match is deterministic. -/
def matchFencedAt (cs : List Char) : Option (List Char) :=
  if startsWithC fenceMark cs then
    let rest0 := cs.drop 3
    let rest1 := if startsWithC "json".toList rest0 then rest0.drop 4 else rest0
    match dropSpaces rest1 with
    | c :: body => if c = lbrace then fencedBody [] body else none
    | [] => none
  else none

/-- Leftmost search for the fenced pattern, as `re.search` of
`(three backticks)(?:json)?\s*(\x7b.*?\x7d)\s*(three backticks)` with
`re.DOTALL` (`llm_service.py` line 135); the capture group is returned. -/
def fencedSearchList : List Char → Option (List Char)
  | [] => none
  | c :: rest =>
    match matchFencedAt (c :: rest) with
    | some g => some g
    | none => fencedSearchList rest

/-- Leftmost search for `\x7b[^\x7b\x7d]*\x7d` as `re.search` does it
(`llm_service.py` line 140): the accumulator holds the characters seen since
the most recent opening brace, if one is open. -/
def braceSearchAux : Option (List Char) → List Char → Option (List Char)
  | _, [] => none
  | acc, c :: cs =>
    if c = lbrace then braceSearchAux (some []) cs
    else if c = rbrace then
      match acc with
      | some mid => some (lbrace :: (mid.reverse ++ [rbrace]))
      | none => braceSearchAux none cs
    else braceSearchAux (acc.map (fun m => c :: m)) cs

/-- String version of the fenced-block search. -/
def fencedSearch (s : String) : Option String :=
  (fencedSearchList s.toList).map (fun l => ⟨l⟩)

/-- String version of the plain brace search. -/
def braceSearch (s : String) : Option String :=
  (braceSearchAux none s.toList).map (fun l => ⟨l⟩)

/-- The substring-selection part of `parse_llm_response` (`llm_service.py`
lines 131-142): strip, then replace the text by the fenced capture if the
fenced pattern matches, then replace the text by the plain brace match if
that matches; the result is what `json.loads` receives. -/
def selectJsonText (response_text : String) : String :=
  let text0 := pyStrip response_text
  let text1 := match fencedSearch text0 with | some g => g | none => text0
  let text2 := match braceSearch text1 with | some g => g | none => text1
  text2

/-- Modelled from the spec: the selection as claim C4 words it — prefer the
fenced block's contents if found, and only otherwise select the first
balanced-looking brace substring.  Kept separate from `selectJsonText`
(the source's behaviour) for comparison. -/
def selectJsonTextClaim (response_text : String) : String :=
  let text0 := pyStrip response_text
  match fencedSearch text0 with
  | some g => g
  | none =>
    match braceSearch text0 with
    | some g => g
    | none => text0

/-- Modelled from the spec: the §4.1 `score_normalization` formula exactly as
worded in claim C5 — base 0.9, ×0.5 if the date did not parse, ×0.7 if the
time did not parse, ×0.95 if relative, clamp to `[0,1]`, round to 2
decimals — without the source's early return for the neither-parsed case.
Kept separate from `calculate_normalization_confidence` for comparison. -/
def normalizationScoreClaim (date_parsed time_parsed is_relative : Bool) : ℚ :=
  let c0 : ℚ := 9/10
  let c1 := if !date_parsed then c0 * (1/2) else c0
  let c2 := if !time_parsed then c1 * (7/10) else c1
  let c3 := if is_relative then c2 * (95/100) else c2
  round2 (clamp01 c3)

/-- A date backend that parses nothing. -/
def noDateBackend : DateBackend := fun _ _ => none

/-- A time backend that parses nothing. -/
def noTimeBackend : TimeBackend := fun _ => none

/-- A date backend that parses exactly the phrase `"tomorrow"`. -/
def tomorrowBackend : DateBackend :=
  fun _ s => if s = "tomorrow" then some ⟨2026, 10, 13⟩ else none

/-- A time backend that parses exactly the phrase `"3pm"`. -/
def threePmBackend : TimeBackend :=
  fun s => if s = "3pm" then some ⟨15, 0⟩ else none

/-- A date backend that resolves `"1 jan 2020"` to a past date. -/
def pastDateBackend : DateBackend :=
  fun _ s => if s = "1 jan 2020" then some ⟨2020, 1, 1⟩ else none

/-- An LLM response whose fenced code block holds a JSON object with nested
braces. -/
def nestedFencedResponse : String :=
  "```json\n\x7b\"a\": \x7b\"date_phrase\": \"x\"\x7d\x7d\n```"

/-- An LLM response whose fenced code block holds a flat JSON object. -/
def flatFencedResponse : String := "```json \x7b\"k\": 2\x7d ```"

/-! ## Helper lemmas -/

/-- Evaluation of `meets_threshold` at the `"normalization"` stage is the 0.7 comparison. -/
lemma meets_threshold_normalization (c : ℚ) :
    meets_threshold c "normalization" =
      decide (MIN_NORMALIZATION_CONFIDENCE ≤ c) := rfl

/-- Core evaluation: neither value parsed. -/
lemma norm_core_none_none (today : PDate) (tz : String) (rel : Bool) :
    normalize_datetime_core today tz none rel none = (none, 0) := rfl

/-- Core evaluation: date parsed, time missing (the no-default-time
policy). -/
lemma norm_core_some_none (today : PDate) (tz : String) (d : PDate) (rel : Bool) :
    normalize_datetime_core today tz (some d) rel none = (none, 0) := rfl

/-- Core evaluation: date missing, time parsed (date defaults to today and
`is_relative` is forced on). -/
lemma norm_core_none_some (today : PDate) (tz : String) (t : PTime) (rel : Bool) :
    normalize_datetime_core today tz none rel (some t) =
      (some ⟨some (formatDate today), some (formatTime t), tz⟩,
        calculate_normalization_confidence true true true) := rfl

/-- Core evaluation: both parsed. -/
lemma norm_core_some_some (today : PDate) (tz : String) (d : PDate) (t : PTime)
    (rel : Bool) :
    normalize_datetime_core today tz (some d) rel (some t) =
      (some ⟨some (formatDate d), some (formatTime t), tz⟩,
        calculate_normalization_confidence true true rel) := rfl

/-- Whenever the core returns a value, its confidence is at or above the
normalization threshold (it is 0.9 or 0.86). -/
lemma norm_core_conf_ge (today : PDate) (tz : String) (pd : Option PDate)
    (rel : Bool) (pt : Option PTime) (n : NormalizedDict)
    (h : (normalize_datetime_core today tz pd rel pt).1 = some n) :
    MIN_NORMALIZATION_CONFIDENCE ≤ (normalize_datetime_core today tz pd rel pt).2 := by
  cases pd <;> cases pt
  · simp [norm_core_none_none] at h
  · rw [norm_core_none_some]
    show MIN_NORMALIZATION_CONFIDENCE ≤ calculate_normalization_confidence true true true
    with_unfolding_all decide
  · simp [norm_core_some_none] at h
  · rw [norm_core_some_some]
    show MIN_NORMALIZATION_CONFIDENCE ≤ calculate_normalization_confidence true true rel
    cases rel
    · with_unfolding_all decide
    · with_unfolding_all decide

/-- Whenever the core returns a value, both its date and time fields are
populated. -/
lemma norm_core_fields (today : PDate) (tz : String) (pd : Option PDate)
    (rel : Bool) (pt : Option PTime) (n : NormalizedDict)
    (h : (normalize_datetime_core today tz pd rel pt).1 = some n) :
    n.date.isSome = true ∧ n.time.isSome = true := by
  cases pd <;> cases pt
  · simp [norm_core_none_none] at h
  · rw [norm_core_none_some] at h
    simp only [Option.some.injEq] at h
    subst h
    exact ⟨rfl, rfl⟩
  · simp [norm_core_some_none] at h
  · rw [norm_core_some_some] at h
    simp only [Option.some.injEq] at h
    subst h
    exact ⟨rfl, rfl⟩

/-- The extraction confidence does not inspect the entity dictionary. -/
lemma cec_indep (e : EntityData) (a b c : Bool) :
    calculate_extraction_confidence e a b c =
      calculate_extraction_confidence ⟨none, none, none⟩ a b c := rfl

/-! ## Claim theorems -/

/-- C1: the standalone `/normalize` operation is gated against the
normalization confidence threshold (0.7): for every input whose computed
normalization confidence fails `meets_threshold`, the handler's status is
`"needs_clarification"`, never `"ok"`.  (Any produced value carries
confidence 0.9 or 0.86, so a below-threshold confidence forces an absent
value and with it the clarification branch.) -/
theorem claim_C1_standalone_normalize_gate (dp : DateBackend) (tp : TimeBackend)
    (today : PDate) (tzName : String) (date_phrase time_phrase : Option String)
    (h : meets_threshold
      (normalize_datetime dp tp today tzName date_phrase time_phrase).2
      "normalization" = false) :
    (normalize_entities dp tp today tzName date_phrase time_phrase).status =
      "needs_clarification" := by
  rw [meets_threshold_normalization] at h
  have hlt := of_decide_eq_false h
  rcases hn : (normalize_datetime dp tp today tzName date_phrase time_phrase).1
    with _ | n
  · simp only [normalize_entities]
    rw [hn]
  · exact absurd (norm_core_conf_ge today tzName _ _ _ n hn) hlt

/-- C1 witness: with a backend that parses nothing and a date-only request,
the confidence is 0 (below threshold) and the status is clarification. -/
theorem claim_C1_witness :
    meets_threshold (normalize_datetime noDateBackend noTimeBackend
      ⟨2026, 10, 12⟩ "Asia/Kolkata" (some "x") none).2 "normalization" = false ∧
    (normalize_entities noDateBackend noTimeBackend
      ⟨2026, 10, 12⟩ "Asia/Kolkata" (some "x") none).status =
      "needs_clarification" :=
  ⟨by with_unfolding_all decide,
   claim_C1_standalone_normalize_gate noDateBackend noTimeBackend
     ⟨2026, 10, 12⟩ "Asia/Kolkata" (some "x") none
     (by with_unfolding_all decide)⟩

/-- C2: both-or-neither — whenever `normalize_datetime` returns a value at
all, that value has both its date and its time field populated. -/
theorem claim_C2_both_or_neither (dp : DateBackend) (tp : TimeBackend)
    (today : PDate) (tzName : String) (date_phrase time_phrase : Option String)
    (n : NormalizedDict)
    (h : (normalize_datetime dp tp today tzName date_phrase time_phrase).1 =
      some n) :
    n.date.isSome = true ∧ n.time.isSome = true :=
  norm_core_fields today tzName _ _ _ n h

/-- C2 witness: a request in which both phrases parse produces a value with
both fields set. -/
theorem claim_C2_witness :
    (normalize_datetime tomorrowBackend threePmBackend ⟨2026, 10, 12⟩
      "Asia/Kolkata" (some "tomorrow") (some "3pm")).1 =
      some ⟨some "2026-10-13", some "15:00", "Asia/Kolkata"⟩ ∧
    ((some "2026-10-13" : Option String).isSome = true ∧
     (some "15:00" : Option String).isSome = true) :=
  ⟨by with_unfolding_all decide,
   claim_C2_both_or_neither tomorrowBackend threePmBackend ⟨2026, 10, 12⟩
     "Asia/Kolkata" (some "tomorrow") (some "3pm")
     ⟨some "2026-10-13", some "15:00", "Asia/Kolkata"⟩
     (by with_unfolding_all decide)⟩

/-- C3 counterexample: with all three entity fields absent, the pipeline
answers at the extraction-confidence gate (0.40 < 0.6) with that gate's
static message, not with the missing-fields message naming the three absent
fields that the claim describes. -/
theorem claim_C3_counterexample :
    create_appointment (4/5) ⟨none, none, none⟩ noDateBackend noTimeBackend
      ⟨2026, 10, 12⟩ "Asia/Kolkata" =
      .clarification "Could not extract sufficient information. Please include date, time, and appointment type." ∧
    AppointmentResult.clarification
        "Could not extract sufficient information. Please include date, time, and appointment type." ≠
      .clarification "Missing required information: date, time, department/appointment type" := by
  constructor
  · with_unfolding_all decide
  · with_unfolding_all decide

/-- C3 amended: for every full-pipeline request that passes the OCR gate and
whose extraction yields none of the three entity fields, the pipeline
returns `needs_clarification` — but at the extraction-confidence gate (the
0-field confidence 0.40 is below the 0.6 threshold), with that gate's
generic message; the missing-fields naming is reachable only after the
confidence gate has passed. -/
theorem claim_C3_amended_gate_first (ocr_confidence : ℚ) (e : EntityData)
    (dp : DateBackend) (tp : TimeBackend) (today : PDate) (tzName : String)
    (hocr : MIN_OCR_CONFIDENCE ≤ ocr_confidence)
    (h1 : e.date_phrase = none) (h2 : e.time_phrase = none)
    (h3 : e.department = none) :
    create_appointment ocr_confidence e dp tp today tzName =
      .clarification "Could not extract sufficient information. Please include date, time, and appointment type." := by
  obtain ⟨a, b, c⟩ := e
  subst h1
  subst h2
  subst h3
  unfold create_appointment
  rw [if_neg (not_lt.mpr hocr)]
  with_unfolding_all rfl

/-- C3 amended, witness at a concrete all-absent request. -/
theorem claim_C3_amended_witness :
    MIN_OCR_CONFIDENCE ≤ (4/5 : ℚ) ∧
    create_appointment (4/5) ⟨none, none, none⟩ noDateBackend noTimeBackend
      ⟨2026, 10, 12⟩ "Asia/Kolkata" =
      .clarification "Could not extract sufficient information. Please include date, time, and appointment type." :=
  ⟨by with_unfolding_all decide,
   claim_C3_amended_gate_first (4/5) ⟨none, none, none⟩ noDateBackend
     noTimeBackend ⟨2026, 10, 12⟩ "Asia/Kolkata"
     (by with_unfolding_all decide) rfl rfl rfl⟩

/-- C4 counterexample: on a fenced response whose JSON object has nested
braces, the parser does NOT keep the fenced block's contents — the second
regex pass narrows the working text to the first inner brace-free object —
whereas the claim's reading (fenced contents preferred, brace search only
otherwise) keeps the whole block contents. -/
theorem claim_C4_counterexample :
    selectJsonText nestedFencedResponse = "\x7b\"date_phrase\": \"x\"\x7d" ∧
    selectJsonTextClaim nestedFencedResponse =
      "\x7b\"a\": \x7b\"date_phrase\": \"x\"\x7d\x7d" ∧
    selectJsonText nestedFencedResponse ≠
      selectJsonTextClaim nestedFencedResponse := by
  refine ⟨by decide, by decide, by decide⟩

/-- C4 amended: the parser prefers the fenced block's capture as working
text when the fenced pattern matches, but then unconditionally applies the
brace-substring selection to that working text as well; only when no fenced
block is present does the brace selection act on the stripped response.
The selected text is what is then handed to the JSON decoder. -/
theorem claim_C4_amended_selection (s : String) :
    (∀ g, fencedSearch (pyStrip s) = some g →
        selectJsonText s = (braceSearch g).getD g) ∧
    (fencedSearch (pyStrip s) = none →
        selectJsonText s = (braceSearch (pyStrip s)).getD (pyStrip s)) := by
  constructor
  · intro g hg
    simp only [selectJsonText, hg]
    cases hb : braceSearch g <;> simp [hb]
  · intro h
    simp only [selectJsonText, h]
    cases hb : braceSearch (pyStrip s) <;> simp [hb]

/-- C4 amended, witness at a flat fenced response. -/
theorem claim_C4_amended_witness :
    fencedSearch (pyStrip flatFencedResponse) = some "\x7b\"k\": 2\x7d" ∧
    selectJsonText flatFencedResponse =
      (braceSearch "\x7b\"k\": 2\x7d").getD "\x7b\"k\": 2\x7d" :=
  ⟨by decide,
   (claim_C4_amended_selection flatFencedResponse).1 "\x7b\"k\": 2\x7d"
     (by decide)⟩

/-- C5: the normalization score equals the spec's formula (base 0.9, ×0.5
missing date, ×0.7 missing time, ×0.95 relative, clamp, round) whenever at
least one of date/time parsed, and is 0 exactly when neither parsed. -/
theorem claim_C5_normalization_confidence_table :
    ∀ date_parsed time_parsed is_relative : Bool,
      calculate_normalization_confidence date_parsed time_parsed is_relative =
        (if date_parsed || time_parsed then
          normalizationScoreClaim date_parsed time_parsed is_relative
        else 0) ∧
      (calculate_normalization_confidence date_parsed time_parsed is_relative = 0 ↔
        date_parsed = false ∧ time_parsed = false) := by
  with_unfolding_all decide

/-- C6: a date that parses with an absent or unparsable time phrase is a
terminal failure — `normalize_datetime` returns an absent value with
confidence exactly 0; the time is never defaulted. -/
theorem claim_C6_date_without_time (dp : DateBackend) (tp : TimeBackend)
    (today : PDate) (tzName : String) (date_phrase time_phrase : Option String)
    (d : PDate)
    (hd : (datePhase dp date_phrase).1 = some d)
    (ht : timePhase tp time_phrase = none) :
    normalize_datetime dp tp today tzName date_phrase time_phrase = (none, 0) := by
  unfold normalize_datetime
  rw [hd, ht]
  exact norm_core_some_none today tzName d _

/-- C6 witness: `normalize("tomorrow", None)` is absent with confidence 0. -/
theorem claim_C6_witness :
    (datePhase tomorrowBackend (some "tomorrow")).1 = some ⟨2026, 10, 13⟩ ∧
    timePhase noTimeBackend none = none ∧
    normalize_datetime tomorrowBackend noTimeBackend ⟨2026, 10, 12⟩
      "Asia/Kolkata" (some "tomorrow") none = (none, 0) :=
  ⟨by decide, rfl,
   claim_C6_date_without_time tomorrowBackend noTimeBackend ⟨2026, 10, 12⟩
     "Asia/Kolkata" (some "tomorrow") none ⟨2026, 10, 13⟩ (by decide) rfl⟩

/-- C7: with the date phrase absent and a time phrase that parses, the
effective date is today in the configured timezone and `is_relative` is
forced to true, so the confidence is the ×0.95-penalised value — which is
observably different from the non-relative value. -/
theorem claim_C7_time_without_date_defaults (dp : DateBackend)
    (tp : TimeBackend) (today : PDate) (tzName : String)
    (time_phrase : Option String) (t : PTime)
    (ht : timePhase tp time_phrase = some t) :
    normalize_datetime dp tp today tzName none time_phrase =
      (some ⟨some (formatDate today), some (formatTime t), tzName⟩,
        calculate_normalization_confidence true true true) ∧
    calculate_normalization_confidence true true true ≠
      calculate_normalization_confidence true true false := by
  constructor
  · unfold normalize_datetime
    rw [ht]
    exact norm_core_none_some today tzName t _
  · with_unfolding_all decide

/-- C7 witness: `normalize(None, "3pm")` gives today's date with 15:00 and
the relative-penalised confidence. -/
theorem claim_C7_witness :
    timePhase threePmBackend (some "3pm") = some ⟨15, 0⟩ ∧
    normalize_datetime noDateBackend threePmBackend ⟨2026, 10, 12⟩
      "Asia/Kolkata" none (some "3pm") =
      (some ⟨some "2026-10-12", some "15:00", "Asia/Kolkata"⟩,
        calculate_normalization_confidence true true true) :=
  ⟨by decide,
   ((claim_C7_time_without_date_defaults noDateBackend threePmBackend
      ⟨2026, 10, 12⟩ "Asia/Kolkata" (some "3pm") ⟨15, 0⟩ (by decide)).1)⟩

/-- C8: department canonicalisation is idempotent on every canonical name of
the fixed taxonomy. -/
theorem claim_C8_department_idempotent (x : String)
    (hx : x ∈ canonicalDepartments) :
    normalize_department (normalize_department (some x)) =
      normalize_department (some x) := by
  fin_cases hx <;> decide

/-- C8 witness at the canonical name `"ENT"`. -/
theorem claim_C8_witness :
    "ENT" ∈ canonicalDepartments ∧
    normalize_department (normalize_department (some "ENT")) =
      normalize_department (some "ENT") :=
  ⟨by decide, claim_C8_department_idempotent "ENT" (by decide)⟩

/-- C9: the extraction confidence is independent of the entity dictionary —
it depends only on the three presence flags — and always lies in
exactly the set of outcomes 0.40, 0.70, 0.85, 0.95. -/
theorem claim_C9_extraction_confidence_independent (e1 e2 : EntityData)
    (has_date has_time has_department : Bool) :
    calculate_extraction_confidence e1 has_date has_time has_department =
      calculate_extraction_confidence e2 has_date has_time has_department ∧
    (calculate_extraction_confidence e1 has_date has_time has_department = 2/5 ∨
     calculate_extraction_confidence e1 has_date has_time has_department = 7/10 ∨
     calculate_extraction_confidence e1 has_date has_time has_department = 17/20 ∨
     calculate_extraction_confidence e1 has_date has_time has_department = 19/20) := by
  refine ⟨rfl, ?_⟩
  rw [cec_indep]
  cases has_date <;> cases has_time <;> cases has_department <;>
    with_unfolding_all decide

/-- C10: the full pipeline has no past-date guardrail — with all three
entities present and both phrases parsing to a date strictly before today,
the pipeline still returns `ok`, and `validate_appointment_date` (which is
never invoked on this path) would have rejected that very date. -/
theorem claim_C10_no_past_date_guardrail (ocr_confidence : ℚ)
    (dphrase tphrase dept : String) (dp : DateBackend) (tp : TimeBackend)
    (today : PDate) (tzName : String) (d : PDate) (t : PTime)
    (hocr : MIN_OCR_CONFIDENCE ≤ ocr_confidence)
    (hdept : dept.isEmpty = false)
    (hd : (datePhase dp (some dphrase)).1 = some d)
    (ht : timePhase tp (some tphrase) = some t)
    (hpast : dateLe today d = false)
    (hrt : parseIso (formatDate d) = some d) :
    create_appointment ocr_confidence ⟨some dphrase, some tphrase, some dept⟩
      dp tp today tzName =
      .ok (normalize_department (some dept)) (formatDate d) (formatTime t)
        tzName ∧
    validate_appointment_date (formatDate d) today = false := by
  have hde : dphrase.isEmpty = false := by
    cases hE : dphrase.isEmpty
    · rfl
    · simp [datePhase, hE] at hd
  have hte : tphrase.isEmpty = false := by
    cases hE : tphrase.isEmpty
    · rfl
    · simp [timePhase, parse_time, hE] at ht
  constructor
  · have hng : ¬ (ocr_confidence < MIN_OCR_CONFIDENCE) := not_lt.mpr hocr
    have hcf : ¬ (calculate_extraction_confidence
        ⟨some dphrase, some tphrase, some dept⟩ true true true <
        MIN_EXTRACTION_CONFIDENCE) := by
      rw [cec_indep]
      with_unfolding_all decide
    have hnd : normalize_datetime dp tp today tzName (some dphrase)
        (some tphrase) =
        (some ⟨some (formatDate d), some (formatTime t), tzName⟩,
          calculate_normalization_confidence true true
            (datePhase dp (some dphrase)).2) := by
      unfold normalize_datetime
      rw [hd, ht]
      exact norm_core_some_some today tzName d t _
    simp only [create_appointment, Option.isSome_some, pyFalsyStr, hde, hte,
      hdept, hng, hcf, hnd, Bool.false_eq_true, if_false, List.append_nil,
      List.nil_append, List.isEmpty_nil, Bool.not_true, Option.isNone_some,
      Bool.or_self, Option.getD_some, ite_false]
  · unfold validate_appointment_date
    rw [hrt]
    exact hpast

/-- C10 witness: a 2020 date with all entities present yields `ok` although
the date validator rejects it against today. -/
theorem claim_C10_witness :
    MIN_OCR_CONFIDENCE ≤ (4/5 : ℚ) ∧
    ("dentist".isEmpty = false) ∧
    (datePhase pastDateBackend (some "1 jan 2020")).1 = some ⟨2020, 1, 1⟩ ∧
    timePhase threePmBackend (some "3pm") = some ⟨15, 0⟩ ∧
    dateLe ⟨2026, 10, 12⟩ ⟨2020, 1, 1⟩ = false ∧
    parseIso (formatDate ⟨2020, 1, 1⟩) = some ⟨2020, 1, 1⟩ ∧
    (create_appointment (4/5) ⟨some "1 jan 2020", some "3pm", some "dentist"⟩
      pastDateBackend threePmBackend ⟨2026, 10, 12⟩ "Asia/Kolkata" =
      .ok (normalize_department (some "dentist")) (formatDate ⟨2020, 1, 1⟩)
        (formatTime ⟨15, 0⟩) "Asia/Kolkata" ∧
    validate_appointment_date (formatDate ⟨2020, 1, 1⟩) ⟨2026, 10, 12⟩ = false) :=
  ⟨by with_unfolding_all decide, by decide, by decide, by decide, by decide,
   by decide,
   claim_C10_no_past_date_guardrail (4/5) "1 jan 2020" "3pm" "dentist"
     pastDateBackend threePmBackend ⟨2026, 10, 12⟩ "Asia/Kolkata"
     ⟨2020, 1, 1⟩ ⟨15, 0⟩ (by with_unfolding_all decide) (by decide)
     (by decide) (by decide) (by decide) (by decide)⟩

end Scheduler
